import Mathlib

/-!
Shallow embedding of the batch face-detection engine of the `mukh`
repository:

* `src/mukh/face_detection/models/base_detector.py`
  (`_process_single_image_for_batch_worker`,
  `BaseFaceDetector.detect_folder`,
  `BaseFaceDetector._process_images_sequentially`),
* `src/mukh/utils/parallel.py` (`MultiProcessor.process`),
* `src/mukh/utils/io.py` (`json_to_csv`).

The model-specific `detect` call is abstract in the source
(`@abstractmethod`); here it is an oracle parameter
`String → Except String (List FaceBBox)` mapping an image file name to
either a detection list or the message of the exception it raises.
Console `print` output is modelled only where a claim depends on it
(per-item error logs); the tqdm progress bar and the `initializer_func`
hook are elided because no claim mentions them.
-/

/-- Python `str.lower()` (ASCII case folding suffices for the literals
this code compares). -/
def strToLower (s : String) : String := String.mk (s.data.map Char.toLower)

/-- Python `s.endswith(suffixStr)`. -/
def strEndsWith (s suffixStr : String) : Bool := suffixStr.data.isSuffixOf s.data

instance {ε α : Type} [DecidableEq ε] [DecidableEq α] :
    DecidableEq (Except ε α) := fun a b =>
  match a, b with
  | Except.ok x, Except.ok y =>
      if h : x = y then isTrue (congrArg Except.ok h)
      else isFalse (fun hc => h (Except.ok.inj hc))
  | Except.error x, Except.error y =>
      if h : x = y then isTrue (congrArg Except.error h)
      else isFalse (fun hc => h (Except.error.inj hc))
  | Except.ok _, Except.error _ => isFalse (fun hc => Except.noConfusion hc)
  | Except.error _, Except.ok _ => isFalse (fun hc => Except.noConfusion hc)

/-- One bounding box as produced by a detector's `detect` call
(`detection.bbox` in the source): four coordinates and a confidence.
The Python values are floats; no arithmetic is ever performed on them
by the batch engine, so `Rat` is a faithful carrier. -/
structure FaceBBox where
  x1 : Rat
  y1 : Rat
  x2 : Rat
  y2 : Rat
  confidence : Rat
deriving DecidableEq, Repr

/-- The dictionary built for each detection in `detect_folder` workers and
in `_process_images_sequentially` (keys `image_name, x1, y1, x2, y2,
confidence`, in that insertion order). -/
structure DetRecord where
  image_name : String
  x1 : Rat
  y1 : Rat
  x2 : Rat
  y2 : Rat
  confidence : Rat
deriving DecidableEq, Repr

/-- A detection oracle: the behaviour of one detector's `detect` on an
image file name. `Except.error e` models `detect` raising an exception
whose `str` is `e`. -/
abbrev Detect := String → Except String (List FaceBBox)

/-- Tagging one bounding box with the file name of the image that
produced it, exactly as the dict literals at
`base_detector.py:71-80` and `base_detector.py:349-358` do. -/
def tagDetection (image_filename : String) (b : FaceBBox) : DetRecord :=
  { image_name := image_filename
    x1 := b.x1
    y1 := b.y1
    x2 := b.x2
    y2 := b.y2
    confidence := b.confidence }

/-- `_process_single_image_for_batch_worker` (`base_detector.py:22-86`):
runs detection for one image inside a worker process; on success returns
the image's tagged detection dictionaries, on any exception prints
`Error processing <image>: <e>` and returns the empty list.  The first
component is the worker's return value, the second the error lines it
printed, kept as structured `(image_filename, message)` pairs. -/
def process_single_image_for_batch_worker (detect : Detect)
    (image_filename : String) : List DetRecord × List (String × String) :=
  match detect image_filename with
  | Except.ok detections => (detections.map (tagDetection image_filename), [])
  | Except.error e => ([], [(image_filename, e)])

/-- Result of the sequential loop: the accumulated `all_detections` list
and the `Error processing <image>: <e>` lines printed for failed items. -/
structure SeqOutcome where
  detections : List DetRecord
  errors : List (String × String)
deriving DecidableEq, Repr

/-- `BaseFaceDetector._process_images_sequentially`
(`base_detector.py:299-367`): one `try` per image; a successful `detect`
appends that image's tagged dictionaries to `all_detections`; an
exception is printed with the image's name and the loop continues with
the remaining images. -/
def process_images_sequentially (detect : Detect) : List String → SeqOutcome
  | [] => { detections := [], errors := [] }
  | img :: rest =>
    let tail := process_images_sequentially detect rest
    match detect img with
    | Except.ok detections =>
        { detections := detections.map (tagDetection img) ++ tail.detections
          errors := tail.errors }
    | Except.error e =>
        { detections := tail.detections
          errors := (img, e) :: tail.errors }

/-! ## MultiProcessor (`src/mukh/utils/parallel.py`) -/

/-- Observable pool lifecycle events of one `process` call:
`mp.get_context(start_mode).Pool(...)` succeeding with `size` worker
processes, and `pool.terminate()`. -/
inductive PoolEvent where
  | created (size : Nat)
  | terminated
deriving DecidableEq, Repr

/-- The configuration fields of `MultiProcessor.__init__`
(`parallel.py:22-47`) used by `process`; the initializer hook and
progress-bar options are elided (no claim depends on them).
`num_processes = none` models passing Python `None`. -/
structure MultiProcessor where
  num_processes : Option Int
  maintain_order : Bool
  start_mode : String
deriving DecidableEq, Repr

/-- The worker count `mp.get_context(...).Pool(processes, ...)` actually
uses: `None` defaults to the host CPU count, a count below 1 makes the
`Pool` constructor raise `ValueError`. -/
def poolSize (num_processes : Option Int) (cpuCount : Nat) : Except String Nat :=
  match num_processes with
  | none => Except.ok cpuCount
  | some n =>
      if 1 ≤ n then Except.ok n.toNat
      else Except.error "Number of processes must be at least 1"

/-- `list(...)` over the results the pool's `imap` yields: values are
collected in order; the first result whose retrieval re-raises a worker
exception aborts the collection with that exception. -/
def collectResults {R : Type} : List (Except String R) → Except String (List R)
  | [] => Except.ok []
  | Except.ok r :: rest => (collectResults rest).map (fun rs => r :: rs)
  | Except.error e :: _ => Except.error e

/-- `MultiProcessor.process` with `gather_results=True`
(`parallel.py:49-98`), driven to completion: `list(process_items())`.

The generator `process_items` creates the pool on entry when
`num_processes != 0`, yields each result, and calls `pool.terminate()`
only after the `yield from` is exhausted.  Inputs: `poolFailure` is the
exogenous outcome of pool construction (`some e` models a
platform/start-method failure raising `e`); `results` is the sequence
of per-item outcomes in the order the chosen `imap` delivers them,
where `Except.error e` models retrieval of that result re-raising a
worker exception.  Output: the pool events that occurred and either the
collected list or the exception that propagated to the caller. -/
def MultiProcessor.process {R : Type} (mp : MultiProcessor)
    (poolFailure : Option String) (cpuCount : Nat)
    (results : List (Except String R)) :
    List PoolEvent × Except String (List R) :=
  if mp.num_processes = some 0 then
    ([], collectResults results)
  else
    match poolSize mp.num_processes cpuCount with
    | Except.error e => ([], Except.error e)
    | Except.ok n =>
        match poolFailure with
        | some e => ([], Except.error e)
        | none =>
            match collectResults results with
            | Except.ok rs => ([PoolEvent.created n, PoolEvent.terminated], Except.ok rs)
            | Except.error e => ([PoolEvent.created n], Except.error e)

/-- Pool events of `MultiProcessor.process` with `gather_results=False`
when the caller drives the returned generator with exactly `k` `next()`
calls — each delivering a successful result — and then abandons it
(`total` is the number of available results).  With `k = 0` the
generator body never starts, so no pool is created; once started, the
`pool.terminate()` line runs only if the generator is driven past its
last yield. -/
def processItemsAbandoned (mp : MultiProcessor) (cpuCount : Nat)
    (total k : Nat) : List PoolEvent :=
  if mp.num_processes = some 0 then []
  else if k = 0 then []
  else
    match poolSize mp.num_processes cpuCount with
    | Except.error _ => []
    | Except.ok n =>
        if total + 1 ≤ k then [PoolEvent.created n, PoolEvent.terminated]
        else [PoolEvent.created n]

/-! ## Folder detection orchestrator (`detect_folder`) -/

/-- Errors `detect_folder` raises during validation
(`base_detector.py:186-195`); the source raises `ValueError`, the
spec's taxonomy calls this class `ConfigurationError`. -/
inductive DetectError where
  | configurationError (msg : String)
deriving DecidableEq, Repr

/-- The `warnings.warn(...)` calls `detect_folder` can emit. -/
inductive OrchWarning where
  | mediapipeSequential
  | multiprocessingFailed (msg : String)
deriving DecidableEq, Repr

/-- Control-flow events of one `detect_folder` call. -/
inductive OrchEvent where
  | sequentialRun
  | parallelAttempt
  | sequentialFallback
deriving DecidableEq, Repr

/-- Everything observable about one `detect_folder` call: the returned
value or raised error, the warnings issued, the control-flow events,
the pool events of the parallel attempt, and the per-item error lines
printed by the orchestrating process's sequential loop. -/
structure FolderOutcome where
  result : Except DetectError (List DetRecord)
  warnings : List OrchWarning
  events : List OrchEvent
  poolEvents : List PoolEvent
  itemErrors : List (String × String)
deriving Repr

/-- The image listing of `base_detector.py:190-192`:
`[f for f in os.listdir(images_folder) if f.lower().endswith(image_extensions)]`. -/
def listImages (folderContents : List String) (image_extensions : List String) :
    List String :=
  folderContents.filter
    (fun f => image_extensions.any (fun ext => strEndsWith (strToLower f) ext))

/-- The guard at `base_detector.py:200-202`:
`detector_model.lower() == "mediapipe" and (num_processes is None or num_processes > 1)`. -/
def mediapipeForcesSequential (detector_model : String)
    (num_processes : Option Int) : Bool :=
  strToLower detector_model == "mediapipe" &&
    (match num_processes with
     | none => true
     | some n => decide (1 < n))

/-- The platform-dependent start method chosen at `base_detector.py:237`:
`"spawn" if platform.system() == "Darwin" else "fork"`. -/
def start_method_for (platformSystem : String) : String :=
  if platformSystem = "Darwin" then "spawn" else "fork"

/-- The per-item result groups the workers would produce for `images`
(`worker_args` at `base_detector.py:243-253` fed through
`_process_single_image_for_batch_worker`), in submission order. -/
def worker_args_groups (createdDetect : Detect) (images : List String) :
    List (List DetRecord) :=
  images.map (fun img => (process_single_image_for_batch_worker createdDetect img).1)

/-- The `try` block of `detect_folder`'s parallel path
(`base_detector.py:234-264`): build the worker argument list, construct
a `MultiProcessor` with the requested process count and platform start
method (`maintain_order` left at its default `False`, so
`imap_unordered` delivers groups in completion order `reorder`), and
run `process`.  Returns the pool events and either the delivered result
groups or the exception the attempt raised. -/
def parallel_attempt (createdDetect : Detect) (poolFailure : Option String)
    (cpuCount : Nat) (reorder : List (List DetRecord) → List (List DetRecord))
    (platformSystem : String) (images : List String)
    (num_processes : Option Int) :
    List PoolEvent × Except String (List (List DetRecord)) :=
  MultiProcessor.process
    { num_processes := num_processes, maintain_order := false
      start_mode := start_method_for platformSystem }
    poolFailure cpuCount
    ((reorder (worker_args_groups createdDetect images)).map Except.ok)

/-- `BaseFaceDetector.detect_folder` (`base_detector.py:152-297`).

Parameters standing for the environment: `selfDetect` is the behaviour
of `self.detect`; `createdDetect` the behaviour of the fresh detector
`FaceDetector.create(detector_model)` builds inside each worker;
`poolFailure` the exogenous outcome of constructing the pool
(`some e`: the Executor level raises `e`); `cpuCount` the host CPU
count; `reorder` the completion order in which `imap_unordered`
delivers the per-item result groups (the orchestrator leaves
`maintain_order` at its default `False`); `platformSystem` the value of
`platform.system()`; `folderContents` is `none` when `images_folder`
does not exist and otherwise the `os.listdir` listing.  JSON saving
(`_save_folder_detections_to_json`) writes the returned list unchanged
and is modelled separately by the `json_to_csv` filesystem model. -/
def detect_folder (selfDetect createdDetect : Detect)
    (poolFailure : Option String) (cpuCount : Nat)
    (reorder : List (List DetRecord) → List (List DetRecord))
    (platformSystem : String)
    (folderContents : Option (List String))
    (num_processes : Option Int)
    (image_extensions : List String)
    (detector_model : String) : FolderOutcome :=
  match folderContents with
  | none =>
      { result := Except.error (DetectError.configurationError "Images folder does not exist")
        warnings := [], events := [], poolEvents := [], itemErrors := [] }
  | some files =>
    let images := listImages files image_extensions
    if images = [] then
      { result := Except.error (DetectError.configurationError "No valid images found")
        warnings := [], events := [], poolEvents := [], itemErrors := [] }
    else if mediapipeForcesSequential detector_model num_processes then
      let seq := process_images_sequentially selfDetect images
      { result := Except.ok seq.detections
        warnings := [OrchWarning.mediapipeSequential]
        events := [OrchEvent.sequentialRun]
        poolEvents := []
        itemErrors := seq.errors }
    else if num_processes = some 0 ∨ num_processes = some 1 then
      let seq := process_images_sequentially selfDetect images
      { result := Except.ok seq.detections
        warnings := []
        events := [OrchEvent.sequentialRun]
        poolEvents := []
        itemErrors := seq.errors }
    else
      let run := parallel_attempt createdDetect poolFailure cpuCount reorder
        platformSystem images num_processes
      match run.2 with
      | Except.ok gs =>
          { result := Except.ok ((gs.filter (fun g => !g.isEmpty)).flatten)
            warnings := []
            events := [OrchEvent.parallelAttempt]
            poolEvents := run.1
            itemErrors := [] }
      | Except.error e =>
          let seq := process_images_sequentially selfDetect images
          { result := Except.ok seq.detections
            warnings := [OrchWarning.multiprocessingFailed e]
            events := [OrchEvent.parallelAttempt, OrchEvent.sequentialFallback,
                       OrchEvent.sequentialRun]
            poolEvents := run.1
            itemErrors := seq.errors }

/-! ## JSON/CSV sink (`src/mukh/utils/io.py`) -/

/-- A JSON scalar as it appears in one detection record's fields. -/
inductive JsonVal where
  | str (s : String)
  | num (q : Rat)
deriving DecidableEq, Repr

/-- The key order of every detection dictionary this repository
serializes (`json_data[0].keys()` for records built by
`base_detector.py`). -/
def detRecordKeys : List String :=
  ["image_name", "x1", "y1", "x2", "y2", "confidence"]

/-- Dictionary lookup on one detection record: `rowdict.get(key)`. -/
def dictGet (r : DetRecord) : String → Option JsonVal
  | "image_name" => some (JsonVal.str r.image_name)
  | "x1" => some (JsonVal.num r.x1)
  | "y1" => some (JsonVal.num r.y1)
  | "x2" => some (JsonVal.num r.x2)
  | "y2" => some (JsonVal.num r.y2)
  | "confidence" => some (JsonVal.num r.confidence)
  | _ => none

/-- The field values of one record in key order, i.e. the JSON object's
values as the spec's CSV projection expects them. -/
def detRecordValues (r : DetRecord) : List JsonVal :=
  [JsonVal.str r.image_name, JsonVal.num r.x1, JsonVal.num r.y1,
   JsonVal.num r.x2, JsonVal.num r.y2, JsonVal.num r.confidence]

/-- A written CSV file: one header row of field names followed by the
data rows' cell values. -/
structure CsvFile where
  header : List String
  rows : List (List JsonVal)
deriving DecidableEq, Repr

/-- `json_to_csv` (`io.py:4-32`) restricted to this repository's
detection records (fixed schema, so `json_data[0].keys()` is
`detRecordKeys`): `none` models the early `return` on empty input (no
file opened); otherwise the `csv.DictWriter` output, whose
`writerows` renders each record by looking every field name up in the
record's dictionary (`restval` is the empty string). -/
def json_to_csv (json_data : List DetRecord) : Option CsvFile :=
  match json_data with
  | [] => none
  | _ :: _ =>
      some { header := detRecordKeys
             rows := json_data.map (fun r =>
               detRecordKeys.map (fun k => (dictGet r k).getD (JsonVal.str ""))) }

/-- A flat filesystem: the CSV files present, newest write first. -/
abbrev FileSystem := List (String × CsvFile)

/-- `open(csv_path, "w")` followed by the writer calls. -/
def writeFile (csv_path : String) (file : CsvFile) (fs : FileSystem) :
    FileSystem :=
  (csv_path, file) :: fs

/-- `json_to_csv` as a filesystem transformer: empty input returns
before `open`, so the filesystem is untouched; otherwise the CSV file
is written to `csv_path`. -/
def json_to_csv_fs (json_data : List DetRecord) (csv_path : String)
    (fs : FileSystem) : FileSystem :=
  match json_to_csv json_data with
  | none => fs
  | some file => writeFile csv_path file fs

/-! ## Concrete sample inputs used by the witnesses -/

/-- A sample bounding box (the values of the `json_to_csv` docstring
example at `io.py:13-22`). -/
def sampleBBox : FaceBBox :=
  { x1 := 71, y1 := 161, x2 := 440, y2 := 637, confidence := 1 }

/-- A sample detector behaviour: raises on `b.jpg`, finds one face in
every other image. -/
def sampleDetect : Detect :=
  fun img => if img = "b.jpg" then Except.error "boom" else Except.ok [sampleBBox]

/-- A detector behaviour that raises on every image. -/
def failingDetect : Detect := fun _ => Except.error "boom"

/-- A detector behaviour that finds no faces in any image. -/
def emptyDetect : Detect := fun _ => Except.ok []

/-- A sample serialized detection record. -/
def sampleRecord : DetRecord := tagDetection "img1.jpg" sampleBBox

/-! ## Helper lemmas -/

theorem collectResults_map_ok {R : Type} (l : List R) :
    collectResults (l.map Except.ok) = Except.ok l := by
  induction l with
  | nil => rfl
  | cons x xs ih => simp [collectResults, ih, Except.map]

theorem process_images_sequentially_append (d : Detect) (xs ys : List String) :
    process_images_sequentially d (xs ++ ys) =
      { detections := (process_images_sequentially d xs).detections ++
          (process_images_sequentially d ys).detections
        errors := (process_images_sequentially d xs).errors ++
          (process_images_sequentially d ys).errors } := by
  induction xs with
  | nil => simp [process_images_sequentially]
  | cons x xs ih =>
      simp only [List.cons_append, process_images_sequentially]
      cases hx : d x <;> simp [hx, ih]

theorem process_images_sequentially_eq_worker (d : Detect) (xs : List String) :
    process_images_sequentially d xs =
      { detections := (worker_args_groups d xs).flatten
        errors := (xs.map
          (fun j => (process_single_image_for_batch_worker d j).2)).flatten } := by
  induction xs with
  | nil => rfl
  | cons x xs ih =>
      simp only [process_images_sequentially, ih, worker_args_groups, List.map_cons,
        List.flatten_cons, process_single_image_for_batch_worker]
      cases hx : d x <;> simp [hx, worker_args_groups]

theorem seq_errors_nil_of_ok (d : Detect) (xs : List String)
    (h : ∀ j ∈ xs, ∃ ds, d j = Except.ok ds) :
    (process_images_sequentially d xs).errors = [] := by
  induction xs with
  | nil => rfl
  | cons x xs ih =>
      obtain ⟨ds, hds⟩ := h x (by simp)
      simp only [process_images_sequentially, hds]
      exact ih (fun j hj => h j (by simp [hj]))

theorem worker_names (d : Detect) (j : String) :
    ∀ r ∈ (process_single_image_for_batch_worker d j).1, r.image_name = j := by
  intro r hr
  unfold process_single_image_for_batch_worker at hr
  cases hd : d j <;> rw [hd] at hr
  · simp at hr
  · simp only [List.mem_map] at hr
    obtain ⟨b, _, rfl⟩ := hr
    rfl

theorem perm_flatten {α : Type} {l1 l2 : List (List α)} (h : l1.Perm l2) :
    l1.flatten.Perm l2.flatten := by
  induction h with
  | nil => exact List.Perm.refl _
  | cons x _ ih => simpa using ih.append_left x
  | swap a b t =>
      simp only [List.flatten_cons]
      rw [← List.append_assoc, ← List.append_assoc]
      exact (List.perm_append_comm).append_right t.flatten
  | trans _ _ ih1 ih2 => exact ih1.trans ih2

theorem flatten_filter_nonempty {α : Type} (l : List (List α)) :
    ((l.filter (fun g => !g.isEmpty)).flatten) = l.flatten := by
  induction l with
  | nil => rfl
  | cons x xs ih =>
      by_cases hx : x = [] <;> simp [List.filter_cons, hx, ih]

theorem names_in_flatten (d : Detect) (xs : List String) (r : DetRecord)
    (hr : r ∈ (worker_args_groups d xs).flatten) : r.image_name ∈ xs := by
  simp only [worker_args_groups, List.mem_flatten, List.mem_map] at hr
  obtain ⟨g, ⟨j, hj, rfl⟩, hrg⟩ := hr
  rw [worker_names d j r hrg]
  exact hj

theorem flatten_filter_name (d : Detect) (xs : List String) (img : String)
    (hnd : xs.Nodup) (hm : img ∈ xs) :
    ((worker_args_groups d xs).flatten).filter (fun r => r.image_name == img)
      = (process_single_image_for_batch_worker d img).1 := by
  induction xs with
  | nil => simp at hm
  | cons x xs ih =>
      rw [worker_args_groups] at *
      rw [List.map_cons, List.flatten_cons, List.filter_append]
      rcases List.mem_cons.mp hm with rfl | hmem
      · have hx : ∀ r ∈ (process_single_image_for_batch_worker d img).1,
            (r.image_name == img) = true := by
          intro r hr
          simp [worker_names d img r hr]
        rw [List.filter_eq_self.mpr hx]
        have hrest : ((xs.map (fun i =>
            (process_single_image_for_batch_worker d i).1)).flatten).filter
              (fun r => r.image_name == img) = [] := by
          rw [List.filter_eq_nil_iff]
          intro r hr
          have hmemname := names_in_flatten d xs r hr
          have himg : img ∉ xs := (List.nodup_cons.mp hnd).1
          simp only [beq_iff_eq]
          intro hname
          exact himg (hname ▸ hmemname)
        rw [hrest, List.append_nil]
      · have hne : x ≠ img := by
          rintro rfl
          exact (List.nodup_cons.mp hnd).1 hmem
        have hx : (process_single_image_for_batch_worker d x).1.filter
            (fun r => r.image_name == img) = [] := by
          rw [List.filter_eq_nil_iff]
          intro r hr
          have hname := worker_names d x r hr
          simp [hname, hne]
        rw [hx, List.nil_append]
        exact ih (List.nodup_cons.mp hnd).2 hmem

theorem mediapipeForcesSequential_iff (m : String) (np : Option Int) :
    mediapipeForcesSequential m np = true ↔
      (strToLower m = "mediapipe" ∧
        (np = none ∨ ∃ n, np = some n ∧ 1 < n)) := by
  cases np <;> simp [mediapipeForcesSequential]

/-! ## Claim theorems -/

/-- C3: `detect_folder` raises a descriptive `ConfigurationError`
before any item is processed whenever the images folder does not exist
or contains no file matching the allowed extensions: the outcome is the
error with no warning, no control-flow event, no pool event and no
per-item log entry — a missing or empty folder is a hard error, never a
silent empty result collection. -/
theorem detect_folder_validation_hard_error
    (selfDetect createdDetect : Detect) (poolFailure : Option String)
    (cpuCount : Nat) (reorder : List (List DetRecord) → List (List DetRecord))
    (platformSystem : String) (folderContents : Option (List String))
    (num_processes : Option Int) (image_extensions : List String)
    (detector_model : String)
    (h : folderContents = none ∨
      ∃ files, folderContents = some files ∧
        listImages files image_extensions = []) :
    ∃ msg,
      detect_folder selfDetect createdDetect poolFailure cpuCount reorder
        platformSystem folderContents num_processes image_extensions
        detector_model =
      { result := Except.error (DetectError.configurationError msg)
        warnings := [], events := [], poolEvents := [], itemErrors := [] } := by
  rcases h with rfl | ⟨files, rfl, hl⟩
  · exact ⟨"Images folder does not exist", rfl⟩
  · exact ⟨"No valid images found", by simp [detect_folder, hl]⟩

/-- C3 witness: a folder whose only entry is `notes.txt` triggers the
configuration error. -/
theorem detect_folder_validation_hard_error_witness :
    ∃ msg,
      detect_folder sampleDetect sampleDetect none 4 id "Linux"
        (some ["notes.txt"]) (some 0) [".jpg"] "mediapipe" =
      { result := Except.error (DetectError.configurationError msg)
        warnings := [], events := [], poolEvents := [], itemErrors := [] } :=
  detect_folder_validation_hard_error sampleDetect sampleDetect none 4 id
    "Linux" (some ["notes.txt"]) (some 0) [".jpg"] "mediapipe"
    (Or.inr ⟨["notes.txt"], rfl, by decide⟩)

/-- C10: called with an empty record list, `json_to_csv` returns before
opening any file: no CSV value is produced and the filesystem is left
exactly as it was — no header-only file appears. -/
theorem json_to_csv_empty_writes_nothing :
    json_to_csv [] = none ∧
      ∀ (csv_path : String) (fs : FileSystem),
        json_to_csv_fs [] csv_path fs = fs :=
  ⟨rfl, fun _ _ => rfl⟩

/-- C9: for every nonempty list of detection records, the CSV
projection written by `json_to_csv` has one header row equal to the
record field names in order, exactly one data row per JSON array
element, and each row's cells are exactly the corresponding record's
field values. -/
theorem json_to_csv_preserves_fields (recs : List DetRecord)
    (h : recs ≠ []) :
    ∃ csv, json_to_csv recs = some csv ∧
      csv.header = detRecordKeys ∧
      csv.rows.length = recs.length ∧
      csv.rows = recs.map detRecordValues := by
  have hfun : (fun x => detRecordKeys.map
      (fun k => (dictGet x k).getD (JsonVal.str ""))) = detRecordValues := by
    funext x
    rfl
  match recs, h with
  | r :: rest, _ =>
      refine ⟨_, rfl, rfl, ?_, ?_⟩
      · simp [json_to_csv]
      · simp [json_to_csv, hfun]

/-- C9 witness: the docstring's single-record example round-trips. -/
theorem json_to_csv_preserves_fields_witness :
    ∃ csv, json_to_csv [sampleRecord] = some csv ∧
      csv.header = detRecordKeys ∧
      csv.rows.length = ([sampleRecord] : List DetRecord).length ∧
      csv.rows = [sampleRecord].map detRecordValues :=
  json_to_csv_preserves_fields [sampleRecord] (by decide)

/-- C5: worker-count semantics of the Batch Executor: `some 0` runs
synchronously in the calling process — no pool event, results are the
plain in-order collection; a positive count `n` creates a pool of
exactly `n` worker processes; `none` (Python `None`, no explicit value)
creates a pool sized to the host CPU count. -/
theorem multiprocessor_worker_count_semantics {R : Type}
    (mo : Bool) (sm : String) (poolFailure : Option String) (cpuCount : Nat)
    (results : List (Except String R)) :
    (MultiProcessor.process ⟨some 0, mo, sm⟩ poolFailure cpuCount results =
        ([], collectResults results)) ∧
    (∀ n : Int, 1 ≤ n →
        (MultiProcessor.process ⟨some n, mo, sm⟩ none cpuCount
          results).1.head? = some (PoolEvent.created n.toNat)) ∧
    ((MultiProcessor.process ⟨none, mo, sm⟩ none cpuCount results).1.head? =
        some (PoolEvent.created cpuCount)) := by
  refine ⟨rfl, ?_, ?_⟩
  · intro n hn
    have hne : ¬ ((⟨some n, mo, sm⟩ : MultiProcessor).num_processes = some 0) := by
      simp
      omega
    simp only [MultiProcessor.process, poolSize, if_neg hne]
    simp only [hn, if_pos]
    cases collectResults results <;> simp
  · simp only [MultiProcessor.process, poolSize]
    cases collectResults results <;> simp

/-- C5 witness: worker counts 0, 3 and `None` on a one-item batch. -/
theorem multiprocessor_worker_count_semantics_witness :
    (MultiProcessor.process ⟨some 0, false, "fork"⟩ none 4
        ([Except.ok [sampleRecord]] : List (Except String (List DetRecord))) =
      ([], collectResults [Except.ok [sampleRecord]])) ∧
    ((MultiProcessor.process ⟨some 3, false, "fork"⟩ none 4
        ([Except.ok [sampleRecord]] : List (Except String (List DetRecord)))).1.head? =
      some (PoolEvent.created 3)) ∧
    ((MultiProcessor.process ⟨none, false, "fork"⟩ none 4
        ([Except.ok [sampleRecord]] : List (Except String (List DetRecord)))).1.head? =
      some (PoolEvent.created 4)) := by
  obtain ⟨h1, h2, h3⟩ := multiprocessor_worker_count_semantics false "fork"
    none 4 ([Except.ok [sampleRecord]] : List (Except String (List DetRecord)))
  exact ⟨h1, h2 3 (by decide), h3⟩

/-- C7 counterexample: with two requested workers and a single item
whose result retrieval re-raises a worker exception, `process` raises
`boom`, yet the only pool event is the pool's creation —
`pool.terminate()` is skipped because the exception propagates out of
the generator before the line after the `yield from` runs.  So the
claim that the pool is torn down before the call returns **or raises**
is false on the raising path. -/
theorem multiprocessor_teardown_counterexample :
    (MultiProcessor.process ⟨some 2, false, "fork"⟩ none 4
        ([Except.error "boom"] : List (Except String (List DetRecord)))).2 =
      Except.error "boom" ∧
    (MultiProcessor.process ⟨some 2, false, "fork"⟩ none 4
        ([Except.error "boom"] : List (Except String (List DetRecord)))).1 =
      [PoolEvent.created 2] ∧
    PoolEvent.terminated ∉
      (MultiProcessor.process ⟨some 2, false, "fork"⟩ none 4
        ([Except.error "boom"] : List (Except String (List DetRecord)))).1 := by
  refine ⟨rfl, rfl, ?_⟩
  decide

/-- C7 (amended): the pool is created fresh inside each `process` call
(it is a local of the call, so never reused across calls) and is
terminated before the call returns when every result is collected
without exception; but when a result retrieval re-raises a worker
exception, or when the lazy iterator of `gather_results=False` is
abandoned before exhaustion, `pool.terminate()` is skipped; with
`num_processes = some 0` no pool is ever created. -/
theorem multiprocessor_pool_lifecycle {R : Type} (mo : Bool) (sm : String)
    (cpuCount : Nat) (results : List (Except String R)) (np : Option Int)
    (n : Nat) (hnp : np ≠ some 0) (hsz : poolSize np cpuCount = Except.ok n) :
    ((MultiProcessor.process ⟨some 0, mo, sm⟩ none cpuCount results).1 = []) ∧
    (∀ rs, collectResults results = Except.ok rs →
      (MultiProcessor.process ⟨np, mo, sm⟩ none cpuCount results).1 =
        [PoolEvent.created n, PoolEvent.terminated]) ∧
    (∀ e, collectResults results = Except.error e →
      (MultiProcessor.process ⟨np, mo, sm⟩ none cpuCount results).1 =
        [PoolEvent.created n]) ∧
    (∀ total k, 1 ≤ k → k ≤ total →
      processItemsAbandoned ⟨np, mo, sm⟩ cpuCount total k =
        [PoolEvent.created n]) := by
  refine ⟨rfl, ?_, ?_, ?_⟩
  · intro rs hrs
    simp [MultiProcessor.process, hnp, hsz, hrs]
  · intro e he
    simp [MultiProcessor.process, hnp, hsz, he]
  · intro total k hk hkt
    have hk0 : ¬ k = 0 := by omega
    have htot : ¬ (total + 1 ≤ k) := by omega
    simp [processItemsAbandoned, hnp, hsz, hk0, htot]

/-- C7 witness: a two-worker pool over one successful result. -/
theorem multiprocessor_pool_lifecycle_witness :
    ((MultiProcessor.process ⟨some 0, false, "fork"⟩ none 4
        ([Except.ok [sampleRecord]] : List (Except String (List DetRecord)))).1 = []) ∧
    (∀ rs, collectResults
        ([Except.ok [sampleRecord]] : List (Except String (List DetRecord))) =
          Except.ok rs →
      (MultiProcessor.process ⟨some 2, false, "fork"⟩ none 4
        ([Except.ok [sampleRecord]] : List (Except String (List DetRecord)))).1 =
        [PoolEvent.created 2, PoolEvent.terminated]) ∧
    (∀ e, collectResults
        ([Except.ok [sampleRecord]] : List (Except String (List DetRecord))) =
          Except.error e →
      (MultiProcessor.process ⟨some 2, false, "fork"⟩ none 4
        ([Except.ok [sampleRecord]] : List (Except String (List DetRecord)))).1 =
        [PoolEvent.created 2]) ∧
    (∀ total k, 1 ≤ k → k ≤ total →
      processItemsAbandoned ⟨some 2, false, "fork"⟩ 4 total k =
        [PoolEvent.created 2]) :=
  multiprocessor_pool_lifecycle false "fork" 4
    ([Except.ok [sampleRecord]] : List (Except String (List DetRecord)))
    (some 2) 2 (by decide) (by decide)

/-- C4: a single failing item is recovered locally in both paths.  In
the sequential loop the failure is logged exactly once with the item's
identity and error message, the item contributes zero entries, and
every other item still contributes its results; the parallel worker for
the failing item logs it and returns the empty group, and the worker
result list still carries one group per remaining item — no per-item
failure aborts the rest of the batch. -/
theorem single_item_failure_is_local
    (detect : Detect) (pre post : List String) (i e : String)
    (hi : detect i = Except.error e)
    (hpre : ∀ j ∈ pre, ∃ ds, detect j = Except.ok ds)
    (hpost : ∀ j ∈ post, ∃ ds, detect j = Except.ok ds) :
    (process_images_sequentially detect (pre ++ i :: post)).errors = [(i, e)] ∧
    (process_images_sequentially detect (pre ++ i :: post)).detections =
      (process_images_sequentially detect pre).detections ++
      (process_images_sequentially detect post).detections ∧
    process_single_image_for_batch_worker detect i = ([], [(i, e)]) ∧
    worker_args_groups detect (pre ++ i :: post) =
      worker_args_groups detect pre ++ [[]] ++ worker_args_groups detect post := by
  have hseq := process_images_sequentially_append detect pre (i :: post)
  have hpre0 := seq_errors_nil_of_ok detect pre hpre
  have hpost0 := seq_errors_nil_of_ok detect post hpost
  have hworker : process_single_image_for_batch_worker detect i = ([], [(i, e)]) := by
    simp [process_single_image_for_batch_worker, hi]
  refine ⟨?_, ?_, hworker, ?_⟩
  · rw [hseq]
    simp [process_images_sequentially, hi, hpre0, hpost0]
  · rw [hseq]
    simp [process_images_sequentially, hi]
  · simp [worker_args_groups, hworker]

/-- C4 witness: in `[a.jpg, b.jpg, c.jpg]` only `b.jpg` fails. -/
theorem single_item_failure_is_local_witness :
    (process_images_sequentially sampleDetect
        (["a.jpg"] ++ "b.jpg" :: ["c.jpg"])).errors = [("b.jpg", "boom")] ∧
    (process_images_sequentially sampleDetect
        (["a.jpg"] ++ "b.jpg" :: ["c.jpg"])).detections =
      (process_images_sequentially sampleDetect ["a.jpg"]).detections ++
      (process_images_sequentially sampleDetect ["c.jpg"]).detections ∧
    process_single_image_for_batch_worker sampleDetect "b.jpg" =
      ([], [("b.jpg", "boom")]) ∧
    worker_args_groups sampleDetect (["a.jpg"] ++ "b.jpg" :: ["c.jpg"]) =
      worker_args_groups sampleDetect ["a.jpg"] ++ [[]] ++
      worker_args_groups sampleDetect ["c.jpg"] :=
  single_item_failure_is_local sampleDetect ["a.jpg"] ["c.jpg"] "b.jpg" "boom"
    rfl
    (fun j hj => by
      rw [List.mem_singleton.mp hj]
      exact ⟨[sampleBBox], rfl⟩)
    (fun j hj => by
      rw [List.mem_singleton.mp hj]
      exact ⟨[sampleBBox], rfl⟩)

theorem seq_detections_eq (d : Detect) (xs : List String) :
    (process_images_sequentially d xs).detections =
      (worker_args_groups d xs).flatten := by
  rw [process_images_sequentially_eq_worker]

theorem parallel_attempt_ok_eq (createdDetect : Detect) (pf : Option String)
    (cpu : Nat) (reorder : List (List DetRecord) → List (List DetRecord))
    (platform : String) (images : List String) (np : Option Int)
    (gs : List (List DetRecord))
    (h : (parallel_attempt createdDetect pf cpu reorder platform images
        np).2 = Except.ok gs) :
    gs = reorder (worker_args_groups createdDetect images) := by
  unfold parallel_attempt MultiProcessor.process at h
  by_cases h0 : ((⟨np, false, start_method_for platform⟩ :
      MultiProcessor).num_processes = some 0)
  · rw [if_pos h0] at h
    rw [collectResults_map_ok] at h
    exact (Except.ok.inj h).symm
  · rw [if_neg h0] at h
    cases hps : poolSize np cpu with
    | error e =>
        simp only [hps] at h
        cases h
    | ok n =>
        simp only [hps] at h
        cases pf with
        | some e => cases h
        | none =>
            simp only [collectResults_map_ok] at h
            exact (Except.ok.inj h).symm

theorem parallel_attempt_ok_pool_events (createdDetect : Detect)
    (cpu : Nat) (reorder : List (List DetRecord) → List (List DetRecord))
    (platform : String) (images : List String) (n : Int)
    (hn : 1 ≤ n) (hn0 : ¬ (n = 0)) :
    parallel_attempt createdDetect none cpu reorder platform images
        (some n) =
      ([PoolEvent.created n.toNat, PoolEvent.terminated],
        Except.ok (reorder (worker_args_groups createdDetect images))) := by
  unfold parallel_attempt MultiProcessor.process
  have h0 : ¬ ((⟨some n, false, start_method_for platform⟩ :
      MultiProcessor).num_processes = some 0) := by
    simpa using hn0
  rw [if_neg h0]
  simp [poolSize, hn, collectResults_map_ok]

/-- C2: execution-mode selection in `detect_folder`.  When the model
identity lower-cases to `mediapipe` and the requested worker count is
absent (`None`) or greater than 1, the run is forced sequential and the
MediaPipe warning is surfaced, whatever the requested count was; when
the worker count is 0 or 1 the run is sequential with no warning;
otherwise the parallel path is attempted, and for an explicit count
`n ≥ 2` (with the pool machinery healthy) the pool holds exactly `n`
workers. -/
theorem detect_folder_mode_selection
    (selfDetect createdDetect : Detect) (poolFailure : Option String)
    (cpuCount : Nat) (reorder : List (List DetRecord) → List (List DetRecord))
    (platformSystem : String) (files : List String)
    (num_processes : Option Int) (image_extensions : List String)
    (detector_model : String)
    (himg : ¬ listImages files image_extensions = []) :
    (strToLower detector_model = "mediapipe" →
      (num_processes = none ∨ ∃ n, num_processes = some n ∧ 1 < n) →
      detect_folder selfDetect createdDetect poolFailure cpuCount reorder
          platformSystem (some files) num_processes image_extensions
          detector_model =
        { result := Except.ok (process_images_sequentially selfDetect
            (listImages files image_extensions)).detections
          warnings := [OrchWarning.mediapipeSequential]
          events := [OrchEvent.sequentialRun]
          poolEvents := []
          itemErrors := (process_images_sequentially selfDetect
            (listImages files image_extensions)).errors }) ∧
    ((num_processes = some 0 ∨ num_processes = some 1) →
      detect_folder selfDetect createdDetect poolFailure cpuCount reorder
          platformSystem (some files) num_processes image_extensions
          detector_model =
        { result := Except.ok (process_images_sequentially selfDetect
            (listImages files image_extensions)).detections
          warnings := []
          events := [OrchEvent.sequentialRun]
          poolEvents := []
          itemErrors := (process_images_sequentially selfDetect
            (listImages files image_extensions)).errors }) ∧
    (¬ (strToLower detector_model = "mediapipe" ∧
        (num_processes = none ∨ ∃ n, num_processes = some n ∧ 1 < n)) →
      ¬ num_processes = some 0 → ¬ num_processes = some 1 →
      ((detect_folder selfDetect createdDetect poolFailure cpuCount reorder
          platformSystem (some files) num_processes image_extensions
          detector_model).events.head? = some OrchEvent.parallelAttempt ∧
        (∀ n : Int, num_processes = some n → 2 ≤ n → poolFailure = none →
          (detect_folder selfDetect createdDetect poolFailure cpuCount
              reorder platformSystem (some files) num_processes
              image_extensions detector_model).poolEvents =
            [PoolEvent.created n.toNat, PoolEvent.terminated]))) := by
  refine ⟨?_, ?_, ?_⟩
  · intro hm hnp
    have hcond : mediapipeForcesSequential detector_model num_processes = true :=
      (mediapipeForcesSequential_iff _ _).mpr ⟨hm, hnp⟩
    simp [detect_folder, himg, hcond]
  · intro hnp
    have hcond : mediapipeForcesSequential detector_model num_processes = false := by
      rcases hnp with rfl | rfl <;> simp [mediapipeForcesSequential]
    rcases hnp with rfl | rfl <;> simp [detect_folder, himg, hcond]
  · intro hnc h0 h1
    have hcond : mediapipeForcesSequential detector_model num_processes = false := by
      cases hval : mediapipeForcesSequential detector_model num_processes
      · rfl
      · exact absurd ((mediapipeForcesSequential_iff _ _).mp hval) hnc
    have hor : ¬ (num_processes = some 0 ∨ num_processes = some 1) := by
      rintro (h | h)
      · exact h0 h
      · exact h1 h
    constructor
    · rcases hout : (parallel_attempt createdDetect poolFailure cpuCount
          reorder platformSystem (listImages files image_extensions)
          num_processes).2 with gs | msg <;>
        simp [detect_folder, himg, hcond, hor, hout]
    · rintro n rfl hn2 rfl
      have hrun := parallel_attempt_ok_pool_events createdDetect cpuCount
        reorder platformSystem (listImages files image_extensions) n
        (by omega) (by omega)
      have hn01 : ¬ (n = 0 ∨ n = 1) := by omega
      simp [detect_folder, himg, hcond, hor, hrun, hn01]

/-- C2 witness: a non-MediaPipe model with an explicit count of 2. -/
theorem detect_folder_mode_selection_witness :
    (strToLower "blazeface" = "mediapipe" →
      ((some 2 : Option Int) = none ∨
        ∃ n, (some 2 : Option Int) = some n ∧ 1 < n) →
      detect_folder sampleDetect sampleDetect none 4 id "Linux"
          (some ["a.jpg"]) (some 2) [".jpg"] "blazeface" =
        { result := Except.ok (process_images_sequentially sampleDetect
            (listImages ["a.jpg"] [".jpg"])).detections
          warnings := [OrchWarning.mediapipeSequential]
          events := [OrchEvent.sequentialRun]
          poolEvents := []
          itemErrors := (process_images_sequentially sampleDetect
            (listImages ["a.jpg"] [".jpg"])).errors }) ∧
    (((some 2 : Option Int) = some 0 ∨ (some 2 : Option Int) = some 1) →
      detect_folder sampleDetect sampleDetect none 4 id "Linux"
          (some ["a.jpg"]) (some 2) [".jpg"] "blazeface" =
        { result := Except.ok (process_images_sequentially sampleDetect
            (listImages ["a.jpg"] [".jpg"])).detections
          warnings := []
          events := [OrchEvent.sequentialRun]
          poolEvents := []
          itemErrors := (process_images_sequentially sampleDetect
            (listImages ["a.jpg"] [".jpg"])).errors }) ∧
    (¬ (strToLower "blazeface" = "mediapipe" ∧
        ((some 2 : Option Int) = none ∨
          ∃ n, (some 2 : Option Int) = some n ∧ 1 < n)) →
      ¬ (some 2 : Option Int) = some 0 → ¬ (some 2 : Option Int) = some 1 →
      ((detect_folder sampleDetect sampleDetect none 4 id "Linux"
          (some ["a.jpg"]) (some 2) [".jpg"] "blazeface").events.head? =
            some OrchEvent.parallelAttempt ∧
        (∀ n : Int, (some 2 : Option Int) = some n → 2 ≤ n →
          (none : Option String) = none →
          (detect_folder sampleDetect sampleDetect none 4 id "Linux"
              (some ["a.jpg"]) (some 2) [".jpg"] "blazeface").poolEvents =
            [PoolEvent.created n.toNat, PoolEvent.terminated]))) :=
  detect_folder_mode_selection sampleDetect sampleDetect none 4 id "Linux"
    ["a.jpg"] (some 2) [".jpg"] "blazeface" (by decide)

theorem fallback_count_le_one (selfDetect createdDetect : Detect)
    (pf : Option String) (cpu : Nat)
    (reorder : List (List DetRecord) → List (List DetRecord))
    (platform : String) (files : List String) (np : Option Int)
    (exts : List String) (model : String) :
    ((detect_folder selfDetect createdDetect pf cpu reorder platform
        (some files) np exts model).events.count
      OrchEvent.sequentialFallback) ≤ 1 := by
  by_cases himg : listImages files exts = []
  · simp [detect_folder, himg]
  · by_cases hm : mediapipeForcesSequential model np = true
    · simp [detect_folder, himg, hm]
    · replace hm : mediapipeForcesSequential model np = false := by
        simpa using hm
      by_cases hnp : np = some 0 ∨ np = some 1
      · rcases hnp with rfl | rfl <;> simp [detect_folder, himg, hm]
      · rcases hout : (parallel_attempt createdDetect pf cpu reorder platform
            (listImages files exts) np).2 with gs | msg <;>
          simp [detect_folder, himg, hm, hnp, hout]

/-- C1: whenever the parallel attempt of `detect_folder` raises —
`parallel_attempt` produces exception `msg`, whether from pool
construction or execution — the orchestrator emits a `UserWarning`
naming `msg` and re-runs the entire image list through the sequential
path: the returned collection is exactly the fully sequential result
over the same images (no partial results of the failed attempt
survive), and in every `detect_folder` call the parallel→sequential
fallback transition occurs at most once. -/
theorem detect_folder_pool_failure_fallback
    (selfDetect createdDetect : Detect) (poolFailure : Option String)
    (cpuCount : Nat) (reorder : List (List DetRecord) → List (List DetRecord))
    (platformSystem : String) (files : List String)
    (num_processes : Option Int) (image_extensions : List String)
    (detector_model : String) (msg : String)
    (himg : ¬ listImages files image_extensions = [])
    (hmp : mediapipeForcesSequential detector_model num_processes = false)
    (h0 : ¬ num_processes = some 0) (h1 : ¬ num_processes = some 1)
    (hfail : (parallel_attempt createdDetect poolFailure cpuCount reorder
        platformSystem (listImages files image_extensions)
        num_processes).2 = Except.error msg) :
    detect_folder selfDetect createdDetect poolFailure cpuCount reorder
        platformSystem (some files) num_processes image_extensions
        detector_model =
      { result := Except.ok (process_images_sequentially selfDetect
          (listImages files image_extensions)).detections
        warnings := [OrchWarning.multiprocessingFailed msg]
        events := [OrchEvent.parallelAttempt, OrchEvent.sequentialFallback,
                   OrchEvent.sequentialRun]
        poolEvents := (parallel_attempt createdDetect poolFailure cpuCount
          reorder platformSystem (listImages files image_extensions)
          num_processes).1
        itemErrors := (process_images_sequentially selfDetect
          (listImages files image_extensions)).errors } ∧
    ∀ pf np,
      ((detect_folder selfDetect createdDetect pf cpuCount reorder
          platformSystem (some files) np image_extensions
          detector_model).events.count OrchEvent.sequentialFallback) ≤ 1 := by
  constructor
  · have hor : ¬ (num_processes = some 0 ∨ num_processes = some 1) := by
      rintro (h | h)
      · exact h0 h
      · exact h1 h
    simp [detect_folder, himg, hmp, hor, hfail]
  · intro pf np
    exact fallback_count_le_one selfDetect createdDetect pf cpuCount reorder
      platformSystem files np image_extensions detector_model

/-- C1 witness: a dead pool on a one-image folder with two workers. -/
theorem detect_folder_pool_failure_fallback_witness :
    detect_folder sampleDetect sampleDetect (some "pool dead") 4 id "Linux"
        (some ["a.jpg"]) (some 2) [".jpg"] "blazeface" =
      { result := Except.ok (process_images_sequentially sampleDetect
          (listImages ["a.jpg"] [".jpg"])).detections
        warnings := [OrchWarning.multiprocessingFailed "pool dead"]
        events := [OrchEvent.parallelAttempt, OrchEvent.sequentialFallback,
                   OrchEvent.sequentialRun]
        poolEvents := (parallel_attempt sampleDetect (some "pool dead") 4 id
          "Linux" (listImages ["a.jpg"] [".jpg"]) (some 2)).1
        itemErrors := (process_images_sequentially sampleDetect
          (listImages ["a.jpg"] [".jpg"])).errors } ∧
    ∀ pf np,
      ((detect_folder sampleDetect sampleDetect pf 4 id "Linux"
          (some ["a.jpg"]) np [".jpg"] "blazeface").events.count
        OrchEvent.sequentialFallback) ≤ 1 :=
  detect_folder_pool_failure_fallback sampleDetect sampleDetect
    (some "pool dead") 4 id "Linux" ["a.jpg"] (some 2) [".jpg"] "blazeface"
    "pool dead" (by decide) (by decide) (by decide) (by decide) (by decide)

/-- C6 counterexample: two sequential `detect_folder` runs over the same
one-image folder — one whose detector raises (one failed item, logged on
the console) and one whose detector finds nothing (zero failures) —
return the very same value.  The returned collection therefore contains
no count of items attempted or of failures, so partial failure is not
observable from the returned value, contradicting the claim. -/
theorem detect_folder_result_hides_failure_counts :
    (detect_folder failingDetect failingDetect none 4 id "Linux"
        (some ["a.jpg"]) (some 0) [".jpg"] "mediapipe").result =
      (detect_folder emptyDetect emptyDetect none 4 id "Linux"
        (some ["a.jpg"]) (some 0) [".jpg"] "mediapipe").result ∧
    (detect_folder failingDetect failingDetect none 4 id "Linux"
        (some ["a.jpg"]) (some 0) [".jpg"] "mediapipe").itemErrors.length = 1 ∧
    (detect_folder emptyDetect emptyDetect none 4 id "Linux"
        (some ["a.jpg"]) (some 0) [".jpg"] "mediapipe").itemErrors.length = 0 := by
  refine ⟨?_, ?_, ?_⟩ <;> decide

/-- C6 (amended): the value `detect_folder` returns is only the flat
list of per-item detection entries — a completion-order flattening of
the per-item result groups — with no count of items attempted and no
count of failures attached; failure counts surface only through console
logs and warnings, not through the returned value. -/
theorem detect_folder_returns_flat_entries
    (detect : Detect) (poolFailure : Option String) (cpuCount : Nat)
    (reorder : List (List DetRecord) → List (List DetRecord))
    (platformSystem : String) (files : List String)
    (num_processes : Option Int) (image_extensions : List String)
    (detector_model : String)
    (himg : ¬ listImages files image_extensions = [])
    (hre : ∀ l, (reorder l).Perm l) :
    ∃ entries,
      (detect_folder detect detect poolFailure cpuCount reorder
        platformSystem (some files) num_processes image_extensions
        detector_model).result = Except.ok entries ∧
      entries.Perm ((worker_args_groups detect
        (listImages files image_extensions)).flatten) := by
  by_cases hm : mediapipeForcesSequential detector_model num_processes = true
  · refine ⟨(process_images_sequentially detect
        (listImages files image_extensions)).detections, ?_, ?_⟩
    · simp [detect_folder, himg, hm]
    · rw [seq_detections_eq]
  · replace hm : mediapipeForcesSequential detector_model num_processes = false := by
      simpa using hm
    by_cases hnp : num_processes = some 0 ∨ num_processes = some 1
    · refine ⟨(process_images_sequentially detect
        (listImages files image_extensions)).detections, ?_, ?_⟩
      · rcases hnp with rfl | rfl <;> simp [detect_folder, himg, hm]
      · rw [seq_detections_eq]
    · rcases hout : (parallel_attempt detect poolFailure cpuCount reorder
          platformSystem (listImages files image_extensions)
          num_processes).2 with msg | gs
      · refine ⟨(process_images_sequentially detect
            (listImages files image_extensions)).detections, ?_, ?_⟩
        · simp [detect_folder, himg, hm, hnp, hout]
        · rw [seq_detections_eq]
      · refine ⟨(gs.filter (fun g => !g.isEmpty)).flatten, ?_, ?_⟩
        · simp [detect_folder, himg, hm, hnp, hout]
        · rw [flatten_filter_nonempty,
            parallel_attempt_ok_eq detect poolFailure cpuCount reorder
              platformSystem (listImages files image_extensions) num_processes
              gs hout]
          exact perm_flatten (hre _)

/-- C6 (amended) witness: a parallel two-worker run over two images. -/
theorem detect_folder_returns_flat_entries_witness :
    ∃ entries,
      (detect_folder sampleDetect sampleDetect none 4 id "Linux"
        (some ["a.jpg", "c.jpg"]) (some 2) [".jpg"]
        "blazeface").result = Except.ok entries ∧
      entries.Perm ((worker_args_groups sampleDetect
        (listImages ["a.jpg", "c.jpg"] [".jpg"])).flatten) :=
  detect_folder_returns_flat_entries sampleDetect none 4 id "Linux"
    ["a.jpg", "c.jpg"] (some 2) [".jpg"] "blazeface" (by decide)
    (fun l => List.Perm.refl l)

/-- C8: per-item attribution in a `detect_folder` run.  Every entry a
worker returns is tagged with its own item's file name; with distinct
file names, the entries of the sequential result tagged `img` are
exactly `img`'s own group; the worker result list carries exactly one
group per item (no item is processed twice); any completion-order
permutation of the groups — parallel mode with `imap_unordered` —
still yields, for each item, exactly that item's entries, so no result
is attributed to the wrong item; and a failing item's group is empty. -/
theorem detect_folder_item_attribution
    (detect : Detect) (images : List String) (img : String)
    (hnd : images.Nodup) (hmem : img ∈ images)
    (gs' : List (List DetRecord))
    (hperm : gs'.Perm (worker_args_groups detect images)) :
    (∀ r ∈ (process_single_image_for_batch_worker detect img).1,
        r.image_name = img) ∧
    ((process_images_sequentially detect images).detections.filter
        (fun r => r.image_name == img) =
      (process_single_image_for_batch_worker detect img).1) ∧
    ((worker_args_groups detect images).length = images.length) ∧
    ((gs'.flatten.filter (fun r => r.image_name == img)).Perm
      (process_single_image_for_batch_worker detect img).1) ∧
    (∀ e, detect img = Except.error e →
      (process_single_image_for_batch_worker detect img).1 = []) := by
  refine ⟨worker_names detect img, ?_, by simp [worker_args_groups], ?_, ?_⟩
  · rw [seq_detections_eq]
    exact flatten_filter_name detect images img hnd hmem
  · have h1 : (gs'.flatten).Perm ((worker_args_groups detect images).flatten) :=
      perm_flatten hperm
    have h2 := h1.filter (fun r => r.image_name == img)
    rw [flatten_filter_name detect images img hnd hmem] at h2
    exact h2
  · intro e he
    simp [process_single_image_for_batch_worker, he]

/-- C8 witness: three distinct images, `b.jpg` failing, with the groups
delivered in reversed completion order. -/
theorem detect_folder_item_attribution_witness :
    (∀ r ∈ (process_single_image_for_batch_worker sampleDetect "a.jpg").1,
        r.image_name = "a.jpg") ∧
    ((process_images_sequentially sampleDetect
        ["a.jpg", "b.jpg", "c.jpg"]).detections.filter
          (fun r => r.image_name == "a.jpg") =
      (process_single_image_for_batch_worker sampleDetect "a.jpg").1) ∧
    ((worker_args_groups sampleDetect ["a.jpg", "b.jpg", "c.jpg"]).length =
      (["a.jpg", "b.jpg", "c.jpg"] : List String).length) ∧
    ((([[tagDetection "c.jpg" sampleBBox], [],
        [tagDetection "a.jpg" sampleBBox]] : List (List DetRecord)).flatten.filter
          (fun r => r.image_name == "a.jpg")).Perm
      (process_single_image_for_batch_worker sampleDetect "a.jpg").1) ∧
    (∀ e, sampleDetect "a.jpg" = Except.error e →
      (process_single_image_for_batch_worker sampleDetect "a.jpg").1 = []) :=
  detect_folder_item_attribution sampleDetect ["a.jpg", "b.jpg", "c.jpg"]
    "a.jpg" (by decide) (by decide)
    [[tagDetection "c.jpg" sampleBBox], [], [tagDetection "a.jpg" sampleBBox]]
    (by decide)
